import Mathlib

/-!
Shallow embedding of `src/commands/setup.rs` (the `Setup` command of netavark).

The file under `src/` contains only the orchestrator `Setup::exec`.  Its
collaborators (`network::validation::ns_checks`, `NetworkOptions::load`,
`firewall::get_supported_firewall_driver`, `CoreUtils::apply_sysctl_value`,
`CoreUtils::create_network_hash`, `Core::bridge_per_podman_network`,
`FirewallDriver::setup_network`, `FirewallDriver::setup_port_forward`) live in
modules that are not part of `src/`; they are modelled as an abstract
environment of fallible functions.  `Setup.exec` is translated as a function
that, besides its `Result`, records the trace of collaborator calls it makes,
so that ordering and abort properties can be stated.
-/

/-- Modelled from the spec (types.rs is not under src/): one port mapping —
host port, container port, protocol, optional host-bind address. -/
structure PortMapping where
  host_port : Nat
  container_port : Nat
  protocol : String
  host_ip : String
deriving DecidableEq

/-- Modelled from the spec (types.rs is not under src/): per-container,
per-network request — requested interface name, static addresses. -/
structure PerNetworkOptions where
  interface_name : String
  static_ips : List String
deriving DecidableEq

/-- Modelled from the spec (types.rs is not under src/): one logical network —
driver identifier, subnets, driver-specific options.  Only the `driver` field
is inspected by `Setup::exec`; the rest is opaque payload passed through. -/
structure Network where
  driver : String
  network_interface : String
  subnets : List String
deriving DecidableEq

/-- Modelled from the spec (types.rs is not under src/): per-network result —
created interfaces and DNS servers, opaque to the orchestrator. -/
structure StatusBlock where
  interfaces : List String
  dns_server_ips : List String
deriving DecidableEq

/-- Modelled from the spec (types.rs is not under src/): the full request.
The spec describes `network_info` (definitions) and `networks` (runtime
options) as mappings from network name to value; they are embedded as
association lists, the list order being the order the networks appear in the
input configuration. -/
structure NetworkOptions where
  container_id : String
  networks : List (String × PerNetworkOptions)
  network_info : List (String × Network)
  port_mappings : Option (List PortMapping)
deriving DecidableEq

/-- Association-list lookup, modelling `HashMap::get` on the per-network
options mapping (`network_options.networks.get(net_name)`). -/
def lookupOpts : List (String × PerNetworkOptions) → String → Option PerNetworkOptions
  | [], _ => none
  | (k, v) :: rest, n => if k = n then some v else lookupOpts rest n

/-- Modelled from the spec: the collaborators of `Setup::exec` that live
outside `src/` (namespace validation, config loading, firewall-backend
discovery, sysctl writes, the identity hasher, the bridge/veth provisioner and
the firewall rule engine), each exposed at its interface as a fallible
function. -/
structure Env where
  ns_checks : String → Except String Unit
  load : String → Except String NetworkOptions
  get_supported_firewall_driver : Except String Unit
  apply_sysctl_value : String → String → Except String Unit
  create_network_hash : String → Nat → String
  bridge_per_podman_network : PerNetworkOptions → Network → String → Except String StatusBlock
  setup_network : Network → String → Except String Unit
  setup_port_forward : Network → String → List PortMapping → String →
    String → PerNetworkOptions → Except String Unit

/-- One observable step of `Setup::exec`: a collaborator call (with its
arguments) or the final printing of the status mapping on stdout. -/
inductive Event where
  | nsCheck (path : String)
  | loadConfig (file : String)
  | firewallDetect
  | sysctl (key value : String)
  | bridgeSetup (net : String) (pno : PerNetworkOptions) (nw : Network) (ns : String)
  | setupNetwork (net : String) (nw : Network) (hash : String)
  | setupPortForward (net : String) (nw : Network) (cid : String)
      (pms : List PortMapping) (hash : String) (pno : PerNetworkOptions)
  | printStatus (resp : List (String × StatusBlock))
deriving DecidableEq

/-- Outcome of one invocation: `Ok(())`, a returned error, or a Rust panic
(`fatal`, from the `panic!` on firewall-backend discovery failure). -/
inductive Outcome where
  | ok
  | error (msg : String)
  | fatal (msg : String)
deriving DecidableEq

/-- Modelled from the spec: the process-level wrapper (main.rs, not under
src/) maps a returned error to a non-zero exit status, and a panic also
terminates the process with a non-zero status. -/
def Outcome.exitCode : Outcome → Nat
  | .ok => 0
  | .error _ => 1
  | .fatal _ => 101

def Outcome.isOk : Outcome → Bool
  | .ok => true
  | _ => false

def Except.isOkB : Except ε α → Bool
  | .ok _ => true
  | .error _ => false

/-- `const IPV4_FORWARD: &str = "net.ipv4.ip_forward";` -/
def IPV4_FORWARD : String := "net.ipv4.ip_forward"

/-- Modelled from the spec (firewall/iptables.rs is not under src/): the fixed
maximum length of the identity token. -/
def MAX_HASH_SIZE : Nat := 13

/-- `pub struct Setup { network_namespace_path: String }` -/
structure Setup where
  network_namespace_path : String

/-- The body of the `"bridge"` match arm (and the unknown-driver arm) of the
per-network loop in `Setup::exec`, for one entry of `network_info`: look up
the per-network options, provision the bridge, install network rules, then
port-forward rules if a port-mappings list is present.  Returns the recorded
call trace together with the `StatusBlock` or the first error. -/
def setupOneNetwork (env : Env) (nsPath : String) (opts : NetworkOptions)
    (net_name : String) (network : Network) : List Event × Except String StatusBlock :=
  if network.driver = "bridge" then
    match lookupOpts opts.networks net_name with
    | none => ([], .error ("network options for network " ++ net_name ++ " not found"))
    | some per_network_opts =>
      match env.bridge_per_podman_network per_network_opts network nsPath with
      | .error e => ([.bridgeSetup net_name per_network_opts network nsPath], .error e)
      | .ok status_block =>
        let id_network_hash := env.create_network_hash net_name MAX_HASH_SIZE
        match env.setup_network network id_network_hash with
        | .error e =>
          ([.bridgeSetup net_name per_network_opts network nsPath,
            .setupNetwork net_name network id_network_hash], .error e)
        | .ok _ =>
          match opts.port_mappings with
          | none =>
            ([.bridgeSetup net_name per_network_opts network nsPath,
              .setupNetwork net_name network id_network_hash], .ok status_block)
          | some i =>
            match env.setup_port_forward network opts.container_id i net_name
                id_network_hash per_network_opts with
            | .error e =>
              ([.bridgeSetup net_name per_network_opts network nsPath,
                .setupNetwork net_name network id_network_hash,
                .setupPortForward net_name network opts.container_id i
                  id_network_hash per_network_opts], .error e)
            | .ok _ =>
              ([.bridgeSetup net_name per_network_opts network nsPath,
                .setupNetwork net_name network id_network_hash,
                .setupPortForward net_name network opts.container_id i
                  id_network_hash per_network_opts], .ok status_block)
  else
    ([], .error ("unknown network driver " ++ network.driver))

/-- The trace produced by processing one `network_info` entry. -/
def oneTrace (env : Env) (nsPath : String) (opts : NetworkOptions)
    (p : String × Network) : List Event :=
  (setupOneNetwork env nsPath opts p.1 p.2).1

/-- The `for (net_name, network) in network_options.network_info.iter()` loop
of `Setup::exec`: processes the networks in order, accumulating the response
mapping, and propagates the first error (`?`), skipping all later entries. -/
def setupLoop (env : Env) (nsPath : String) (opts : NetworkOptions) :
    List (String × Network) → List (String × StatusBlock) →
    List Event × Except String (List (String × StatusBlock))
  | [], response => ([], .ok response)
  | (net_name, network) :: rest, response =>
    match setupOneNetwork env nsPath opts net_name network with
    | (evs, .error e) => (evs, .error e)
    | (evs, .ok sb) =>
      let r2 := setupLoop env nsPath opts rest (response ++ [(net_name, sb)])
      (evs ++ r2.1, r2.2)

/-- `Setup::exec` after configuration loading: firewall-backend discovery
(panics on failure), the single IPv4-forwarding sysctl, the per-network loop,
and the final `println!` of the serialized response on success. -/
def execLoaded (env : Env) (nsPath : String) (opts : NetworkOptions) :
    List Event × Outcome :=
  match env.get_supported_firewall_driver with
  | .error e => ([.firewallDetect], .fatal e)
  | .ok _ =>
   match env.apply_sysctl_value IPV4_FORWARD "1" with
   | .error e => ([.firewallDetect, .sysctl IPV4_FORWARD "1"], .error e)
   | .ok _ =>
     match setupLoop env nsPath opts opts.network_info [] with
     | (evs, .error e) =>
       (.firewallDetect :: .sysctl IPV4_FORWARD "1" :: evs, .error e)
     | (evs, .ok response) =>
       (.firewallDetect :: .sysctl IPV4_FORWARD "1" ::
          (evs ++ [.printStatus response]), .ok)

/-- `Setup::exec`: namespace validation, configuration loading, then the rest
(`execLoaded`).  Returns the call trace and the invocation's outcome. -/
def Setup.exec (env : Env) (s : Setup) (input_file : String) : List Event × Outcome :=
  match env.ns_checks s.network_namespace_path with
  | .error e =>
    ([.nsCheck s.network_namespace_path], .error ("invalid namespace path: " ++ e))
  | .ok _ =>
    match env.load input_file with
    | .error e =>
      ([.nsCheck s.network_namespace_path, .loadConfig input_file], .error e)
    | .ok opts =>
      let r := execLoaded env s.network_namespace_path opts
      (.nsCheck s.network_namespace_path :: .loadConfig input_file :: r.1, r.2)

def Event.isPrint : Event → Bool
  | .printStatus _ => true
  | _ => false

def Event.isSysctl : Event → Bool
  | .sysctl _ _ => true
  | _ => false

/-- Whether an event is a per-network step (device provisioning, network
rules, or port-forward rules). -/
def Event.isPerNetwork : Event → Bool
  | .bridgeSetup _ _ _ _ => true
  | .setupNetwork _ _ _ => true
  | .setupPortForward _ _ _ _ _ _ => true
  | _ => false

/-- The network name a per-network event belongs to, if any. -/
def Event.netOf : Event → Option String
  | .bridgeSetup n _ _ _ => some n
  | .setupNetwork n _ _ => some n
  | .setupPortForward n _ _ _ _ _ => some n
  | _ => none

/-- Sample per-network options for the network named `a`. -/
def pnoA : PerNetworkOptions := ⟨"eth0", ["10.0.0.2/24"]⟩

/-- Sample per-network options for the network named `b`. -/
def pnoB : PerNetworkOptions := ⟨"eth1", []⟩

/-- Sample per-network options for the network named `c`. -/
def pnoC : PerNetworkOptions := ⟨"eth2", []⟩

/-- A bridge network definition. -/
def netBridgeA : Network := ⟨"bridge", "podman0", ["10.0.0.0/24"]⟩

/-- A second bridge network definition. -/
def netBridgeB : Network := ⟨"bridge", "podman1", ["10.0.1.0/24"]⟩

/-- A third bridge network definition. -/
def netBridgeC : Network := ⟨"bridge", "podman2", ["10.0.2.0/24"]⟩

/-- A network definition with an unsupported driver. -/
def netMacvlan : Network := ⟨"macvlan", "m0", ["10.1.0.0/24"]⟩

/-- A sample provisioning result. -/
def sbA : StatusBlock := ⟨["eth0"], []⟩

/-- A sample port mapping, host 8080 to container 80 over tcp. -/
def pmA : PortMapping := ⟨8080, 80, "tcp", ""⟩

/-- An environment in which every collaborator succeeds, loading the given
configuration; the identity hasher returns the network name itself. -/
def baseEnv (opts : NetworkOptions) : Env where
  ns_checks := fun _ => .ok ()
  load := fun _ => .ok opts
  get_supported_firewall_driver := .ok ()
  apply_sysctl_value := fun _ _ => .ok ()
  create_network_hash := fun n _ => n
  bridge_per_podman_network := fun _ _ _ => .ok sbA
  setup_network := fun _ _ => .ok ()
  setup_port_forward := fun _ _ _ _ _ _ => .ok ()

/-- A request with two bridge networks and no port mappings. -/
def optsTwo : NetworkOptions :=
  { container_id := "cid"
    networks := [("a", pnoA), ("b", pnoB)]
    network_info := [("a", netBridgeA), ("b", netBridgeB)]
    port_mappings := none }

/-- A request with one bridge network and one port mapping. -/
def optsPF : NetworkOptions :=
  { container_id := "cid"
    networks := [("a", pnoA)]
    network_info := [("a", netBridgeA)]
    port_mappings := some [pmA] }

/-- A request with three bridge networks, used with an environment whose
provisioner fails on the second one. -/
def optsThree : NetworkOptions :=
  { container_id := "cid"
    networks := [("a", pnoA), ("b", pnoB), ("c", pnoC)]
    network_info := [("a", netBridgeA), ("b", netBridgeB), ("c", netBridgeC)]
    port_mappings := none }

/-- An environment for `optsThree` whose bridge provisioner fails exactly on
the bridge device of network `b`. -/
def envFailB : Env :=
  { baseEnv optsThree with
    bridge_per_podman_network := fun _ nw _ =>
      if nw.network_interface = "podman1" then .error "boom" else .ok sbA }

/-- A request whose second network names an unsupported driver. -/
def optsMac : NetworkOptions :=
  { container_id := "cid"
    networks := [("a", pnoA), ("m", pnoB)]
    network_info := [("a", netBridgeA), ("m", netMacvlan)]
    port_mappings := none }

/-- A request with a bridge network that has no per-network options entry. -/
def optsMissing : NetworkOptions :=
  { container_id := "cid"
    networks := [("a", pnoA)]
    network_info := [("a", netBridgeA), ("b", netBridgeB)]
    port_mappings := none }

/-- A request whose runtime-options mapping has an entry `b` that is absent
from the definitions mapping. -/
def optsExtra : NetworkOptions :=
  { container_id := "cid"
    networks := [("a", pnoA), ("b", pnoB)]
    network_info := [("a", netBridgeA)]
    port_mappings := none }

/-- Like `optsExtra` but without the stray runtime-options entry. -/
def optsNoExtra : NetworkOptions :=
  { container_id := "cid"
    networks := [("a", pnoA)]
    network_info := [("a", netBridgeA)]
    port_mappings := none }

/-- An environment in which firewall-backend discovery fails. -/
def envNoFirewall : Env :=
  { baseEnv optsTwo with
    get_supported_firewall_driver := .error "could not find a firewall driver" }

/-- A trace in which every port-forward call is preceded, earlier in the
trace, by a network-rules call for the same network and token that returned
successfully. -/
def pfGuarded (env : Env) (tr : List Event) : Prop :=
  ∀ l1 n nw cid pms h pno l2,
    tr = l1 ++ Event.setupPortForward n nw cid pms h pno :: l2 →
    Event.setupNetwork n nw h ∈ l1 ∧ env.setup_network nw h = .ok ()

/-- The trace of processing one network has one of four shapes: empty (driver
rejected or options missing), device-provisioning only, device provisioning
followed by network rules, or all three steps — and the third step occurs only
after `setup_network` returned successfully, with the request's full
port-mappings list as argument. -/
theorem setupOneNetwork_shapes (env : Env) (ns : String) (opts : NetworkOptions)
    (n : String) (nw : Network) :
    ((setupOneNetwork env ns opts n nw).1 = [] ∧
      (setupOneNetwork env ns opts n nw).2.isOkB = false)
    ∨ (∃ pno, (setupOneNetwork env ns opts n nw).1 = [Event.bridgeSetup n pno nw ns] ∧
        (setupOneNetwork env ns opts n nw).2.isOkB = false)
    ∨ (∃ pno, (setupOneNetwork env ns opts n nw).1 =
        [Event.bridgeSetup n pno nw ns,
         Event.setupNetwork n nw (env.create_network_hash n MAX_HASH_SIZE)] ∧
        ((setupOneNetwork env ns opts n nw).2.isOkB = true → opts.port_mappings = none))
    ∨ (∃ pno pms, opts.port_mappings = some pms ∧
        env.setup_network nw (env.create_network_hash n MAX_HASH_SIZE) = .ok () ∧
        (setupOneNetwork env ns opts n nw).1 =
          [Event.bridgeSetup n pno nw ns,
           Event.setupNetwork n nw (env.create_network_hash n MAX_HASH_SIZE),
           Event.setupPortForward n nw opts.container_id pms
             (env.create_network_hash n MAX_HASH_SIZE) pno]) := by
  unfold setupOneNetwork
  split
  · cases hl : lookupOpts opts.networks n with
    | none => simp [Except.isOkB]
    | some pno =>
      cases hb : env.bridge_per_podman_network pno nw ns with
      | error e => simp [hb, Except.isOkB]
      | ok sb =>
        cases hs : env.setup_network nw (env.create_network_hash n MAX_HASH_SIZE) with
        | error e => simp [hb, hs, Except.isOkB]
        | ok u =>
          cases u
          cases hp : opts.port_mappings with
          | none => simp [hb, hs, hp, Except.isOkB]
          | some pms =>
            cases hf : env.setup_port_forward nw opts.container_id pms n
                (env.create_network_hash n MAX_HASH_SIZE) pno with
            | error e =>
              refine Or.inr (Or.inr (Or.inr ⟨pno, pms, rfl, rfl, ?_⟩))
              simp [hb, hs, hf]
            | ok v =>
              cases v
              refine Or.inr (Or.inr (Or.inr ⟨pno, pms, rfl, rfl, ?_⟩))
              simp [hb, hs, hf]
  · simp [Except.isOkB]

/-- Every event recorded while processing one network is a per-network step
tagged with that network's name. -/
theorem oneTrace_mem (env : Env) (ns : String) (opts : NetworkOptions)
    (p : String × Network) :
    ∀ ev ∈ oneTrace env ns opts p, ev.isPerNetwork = true ∧ ev.netOf = some p.1 := by
  intro ev hev
  rcases setupOneNetwork_shapes env ns opts p.1 p.2 with ⟨h, _⟩ | ⟨pno, h, _⟩ | ⟨pno, h, _⟩ |
      ⟨pno, pms, _, _, h⟩ <;>
    rw [oneTrace, h] at hev <;> simp at hev
  · rcases hev with rfl | rfl <;> exact ⟨rfl, rfl⟩
  · rcases hev with rfl | rfl <;> exact ⟨rfl, rfl⟩
  · rcases hev with rfl | rfl | rfl <;> exact ⟨rfl, rfl⟩

/-- Every event recorded by the per-network loop belongs to the trace of one
of the processed networks. -/
theorem setupLoop_mem (env : Env) (ns : String) (opts : NetworkOptions) :
    ∀ (nets : List (String × Network)) (resp : List (String × StatusBlock)) (ev : Event),
      ev ∈ (setupLoop env ns opts nets resp).1 →
      ∃ r ∈ nets, ev ∈ oneTrace env ns opts r := by
  intro nets
  induction nets with
  | nil => intro resp ev hev; simp [setupLoop] at hev
  | cons q rest ih =>
    intro resp ev hev
    obtain ⟨n, nw⟩ := q
    rcases h0 : setupOneNetwork env ns opts n nw with ⟨evs, r⟩
    simp only [setupLoop, h0] at hev
    cases r with
    | error e =>
      exact ⟨(n, nw), by simp, by rw [oneTrace, h0]; exact hev⟩
    | ok sb =>
      simp only [List.mem_append] at hev
      rcases hev with hev | hev
      · exact ⟨(n, nw), by simp, by rw [oneTrace, h0]; exact hev⟩
      · obtain ⟨r, hr, hmem⟩ := ih (resp ++ [(n, sb)]) ev hev
        exact ⟨r, by simp [hr], hmem⟩

/-- A list either satisfies a boolean predicate everywhere, or splits at the
first element that falsifies it. -/
theorem first_fail_decomp {α : Type} (p : α → Bool) :
    ∀ l : List α, (∀ x ∈ l, p x = true) ∨
      ∃ pre q post, l = pre ++ q :: post ∧ (∀ x ∈ pre, p x = true) ∧ p q = false := by
  intro l
  induction l with
  | nil => left; simp
  | cons x xs ih =>
    cases hx : p x with
    | false => right; exact ⟨[], x, xs, by simp, by simp, hx⟩
    | true =>
      rcases ih with h | ⟨pre, q, post, rfl, hpre, hq⟩
      · left
        intro y hy
        rcases List.mem_cons.1 hy with rfl | hy
        · exact hx
        · exact h y hy
      · right
        refine ⟨x :: pre, q, post, by simp, ?_, hq⟩
        intro y hy
        rcases List.mem_cons.1 hy with rfl | hy
        · exact hx
        · exact hpre y hy

/-- In an association list with duplicate-free keys, a key determines its
value. -/
theorem keyInj {α : Type} :
    ∀ (l : List (String × α)), (l.map Prod.fst).Nodup →
      ∀ {n : String} {a b : α}, (n, a) ∈ l → (n, b) ∈ l → a = b := by
  intro l
  induction l with
  | nil => intro _ n a b h; simp at h
  | cons x xs ih =>
    intro hnd n a b ha hb
    simp only [List.map_cons, List.nodup_cons] at hnd
    rcases List.mem_cons.1 ha with h1 | ha2
    · rcases List.mem_cons.1 hb with h2 | hb2
      · rw [← h1] at h2
        exact ((Prod.ext_iff.1 h2).2).symm
      · exfalso
        apply hnd.1
        have hmm : (n, b).1 ∈ xs.map Prod.fst := List.mem_map_of_mem Prod.fst hb2
        rw [← h1]
        exact hmm
    · rcases List.mem_cons.1 hb with h2 | hb2
      · exfalso
        apply hnd.1
        have hmm : (n, a).1 ∈ xs.map Prod.fst := List.mem_map_of_mem Prod.fst ha2
        rw [← h2]
        exact hmm
      · exact ih hnd.2 ha2 hb2

/-- If all networks before `q` succeed and `q` fails, the loop's trace is
exactly the concatenation of the earlier networks' traces followed by the
events of `q`, the outcome is `q`'s error, and nothing of the networks after
`q` is executed. -/
theorem setupLoop_fail (env : Env) (ns : String) (opts : NetworkOptions)
    (q : String × Network) (post : List (String × Network)) (e : String)
    (hfail : (setupOneNetwork env ns opts q.1 q.2).2 = .error e) :
    ∀ (pre : List (String × Network)) (resp : List (String × StatusBlock)),
      (∀ r ∈ pre, (setupOneNetwork env ns opts r.1 r.2).2.isOkB = true) →
      setupLoop env ns opts (pre ++ q :: post) resp =
        ((pre.map (oneTrace env ns opts)).join ++ oneTrace env ns opts q, .error e) := by
  intro pre
  induction pre with
  | nil =>
    intro resp _
    obtain ⟨n, nw⟩ := q
    rcases h0 : setupOneNetwork env ns opts n nw with ⟨evs, r⟩
    rw [h0] at hfail
    simp only [List.nil_append, setupLoop, h0]
    cases r with
    | error e0 =>
      cases hfail
      simp [oneTrace, h0]
    | ok sb => exact absurd hfail (by simp)
  | cons r0 pre ih =>
    intro resp hpre
    obtain ⟨n0, nw0⟩ := r0
    have hok : (setupOneNetwork env ns opts n0 nw0).2.isOkB = true := hpre (n0, nw0) (List.mem_cons_self _ _)
    rcases h0 : setupOneNetwork env ns opts n0 nw0 with ⟨evs0, r0r⟩
    rw [h0] at hok
    cases r0r with
    | error e0 => simp [Except.isOkB] at hok
    | ok sb0 =>
      simp only [List.cons_append, setupLoop, h0, List.append_eq]
      rw [ih (resp ++ [(n0, sb0)]) (fun r hr => hpre r (by simp [hr]))]
      simp [oneTrace, h0, List.append_assoc]

/-- If every network in the list succeeds, the loop's trace is the
concatenation of all the per-network traces in list order and the outcome
extends the accumulated response. -/
theorem setupLoop_ok (env : Env) (ns : String) (opts : NetworkOptions) :
    ∀ (nets : List (String × Network)) (resp : List (String × StatusBlock)),
      (∀ r ∈ nets, (setupOneNetwork env ns opts r.1 r.2).2.isOkB = true) →
      ∃ sbs, setupLoop env ns opts nets resp =
        ((nets.map (oneTrace env ns opts)).join, .ok (resp ++ sbs)) := by
  intro nets
  induction nets with
  | nil => intro resp _; exact ⟨[], by simp [setupLoop]⟩
  | cons q rest ih =>
    intro resp h
    obtain ⟨n, nw⟩ := q
    have hok := h (n, nw) (List.mem_cons_self _ _)
    rcases h0 : setupOneNetwork env ns opts n nw with ⟨evs, r⟩
    rw [h0] at hok
    cases r with
    | error e => simp [Except.isOkB] at hok
    | ok sb =>
      obtain ⟨sbs, hrec⟩ := ih (resp ++ [(n, sb)]) (fun r hr => h r (by simp [hr]))
      refine ⟨(n, sb) :: sbs, ?_⟩
      simp only [setupLoop, h0, hrec]
      simp [oneTrace, h0, List.append_assoc]

/-- If some network in the list fails, the loop's outcome is an error. -/
theorem setupLoop_error_of_mem (env : Env) (ns : String) (opts : NetworkOptions)
    (nets : List (String × Network)) (resp : List (String × StatusBlock))
    (q : String × Network) (hq : q ∈ nets)
    (hbad : ¬ (setupOneNetwork env ns opts q.1 q.2).2.isOkB = true) :
    ∃ e, (setupLoop env ns opts nets resp).2 = .error e := by
  rcases first_fail_decomp (fun r => (setupOneNetwork env ns opts r.1 r.2).2.isOkB) nets with
    hall | ⟨pre, q0, post, rfl, hpre, hq0⟩
  · exact absurd (hall q hq) hbad
  · rcases h0 : (setupOneNetwork env ns opts q0.1 q0.2).2 with e0 | sb0
    · exact ⟨e0, by rw [setupLoop_fail env ns opts q0 post e0 h0 pre resp hpre]⟩
    · rw [h0] at hq0; simp [Except.isOkB] at hq0

/-- Per-network events are neither the status print nor a sysctl write. -/
theorem perNetwork_not_print_sysctl (ev : Event) (h : ev.isPerNetwork = true) :
    ev.isPrint = false ∧ ev.isSysctl = false := by
  cases ev <;> simp_all [Event.isPerNetwork, Event.isPrint, Event.isSysctl]

/-- The per-network loop never prints the status mapping. -/
theorem setupLoop_no_print (env : Env) (ns : String) (opts : NetworkOptions)
    (nets : List (String × Network)) (resp : List (String × StatusBlock)) :
    (setupLoop env ns opts nets resp).1.countP Event.isPrint = 0 := by
  rw [List.countP_eq_zero]
  intro ev hev
  obtain ⟨r, _, hmem⟩ := setupLoop_mem env ns opts nets resp ev hev
  have h := (oneTrace_mem env ns opts r ev hmem).1
  simp [(perNetwork_not_print_sysctl ev h).1]

/-- The per-network loop never writes a sysctl. -/
theorem setupLoop_no_sysctl (env : Env) (ns : String) (opts : NetworkOptions)
    (nets : List (String × Network)) (resp : List (String × StatusBlock)) :
    (setupLoop env ns opts nets resp).1.countP Event.isSysctl = 0 := by
  rw [List.countP_eq_zero]
  intro ev hev
  obtain ⟨r, _, hmem⟩ := setupLoop_mem env ns opts nets resp ev hev
  have h := (oneTrace_mem env ns opts r ev hmem).1
  simp [(perNetwork_not_print_sysctl ev h).2]

/-- The empty trace is port-forward guarded. -/
theorem pfGuarded_nil (env : Env) : pfGuarded env [] := by
  intro l1 n nw cid pms h pno l2 heq
  exact absurd heq (by simp)

/-- Guardedness is preserved by concatenation. -/
theorem pfGuarded_append (env : Env) {A B : List Event}
    (hA : pfGuarded env A) (hB : pfGuarded env B) : pfGuarded env (A ++ B) := by
  intro l1 n nw cid pms h pno l2 heq
  rcases List.append_eq_append_iff.1 heq with ⟨a, ha1, ha2⟩ | ⟨c, hc1, hc2⟩
  · obtain ⟨hsn, hok⟩ := hB a n nw cid pms h pno l2 ha2
    refine ⟨?_, hok⟩
    rw [ha1]
    exact List.mem_append_right A hsn
  · cases c with
    | nil =>
      rw [List.nil_append] at hc2
      obtain ⟨hsn, hok⟩ := hB [] n nw cid pms h pno l2 (by simpa using hc2.symm)
      simp at hsn
    | cons x c =>
      rw [List.cons_append] at hc2
      obtain ⟨hx, hl2⟩ := List.cons_eq_cons.mp hc2
      obtain ⟨hsn, hok⟩ := hA l1 n nw cid pms h pno c (by rw [hc1, ← hx])
      exact ⟨hsn, hok⟩

/-- A singleton trace whose event is not a port-forward call is guarded. -/
theorem pfGuarded_single (env : Env) (e : Event)
    (he : ∀ n nw cid pms h pno, e ≠ Event.setupPortForward n nw cid pms h pno) :
    pfGuarded env [e] := by
  intro l1 n nw cid pms h pno l2 heq
  cases l1 with
  | nil =>
    rw [List.nil_append] at heq
    obtain ⟨hx, _⟩ := List.cons_eq_cons.mp heq
    exact absurd hx (he n nw cid pms h pno)
  | cons x l1 =>
    rw [List.cons_append] at heq
    obtain ⟨_, htl⟩ := List.cons_eq_cons.mp heq
    exact absurd htl.symm (by simp)

/-- Prefixing a non-port-forward event preserves guardedness. -/
theorem pfGuarded_cons (env : Env) (e : Event) (tr : List Event)
    (he : ∀ n nw cid pms h pno, e ≠ Event.setupPortForward n nw cid pms h pno)
    (htr : pfGuarded env tr) : pfGuarded env (e :: tr) := by
  have := pfGuarded_append env (pfGuarded_single env e he) htr
  simpa using this

/-- The trace of one network is guarded: its port-forward call, if any, comes
after its own successful network-rules call. -/
theorem pfGuarded_oneTrace (env : Env) (ns : String) (opts : NetworkOptions)
    (p : String × Network) : pfGuarded env (oneTrace env ns opts p) := by
  rcases setupOneNetwork_shapes env ns opts p.1 p.2 with ⟨h, _⟩ | ⟨pno, h, _⟩ | ⟨pno, h, _⟩ |
      ⟨pno, pms, hp, hok, h⟩ <;> rw [oneTrace, h]
  · exact pfGuarded_nil env
  · exact pfGuarded_single env _ (by simp)
  · exact pfGuarded_cons env _ _ (by simp) (pfGuarded_single env _ (by simp))
  · intro l1 n nw cid pms0 h0 pno0 l2 heq
    rcases l1 with _ | ⟨x, _ | ⟨y, _ | ⟨z, l1⟩⟩⟩
    · rw [List.nil_append] at heq
      obtain ⟨hx, _⟩ := List.cons_eq_cons.mp heq
      exact absurd hx (by simp)
    · rw [List.cons_append] at heq
      obtain ⟨_, htl⟩ := List.cons_eq_cons.mp heq
      rw [List.nil_append] at htl
      obtain ⟨hy, _⟩ := List.cons_eq_cons.mp htl
      exact absurd hy (by simp)
    · rw [List.cons_append] at heq
      obtain ⟨hx, htl⟩ := List.cons_eq_cons.mp heq
      rw [List.cons_append, List.nil_append] at htl
      obtain ⟨hy, htl2⟩ := List.cons_eq_cons.mp htl
      obtain ⟨hz, _⟩ := List.cons_eq_cons.mp htl2
      injection hz with hn hnw hcid hpms hh hpno
      subst hn
      subst hnw
      subst hcid
      subst hpms
      subst hh
      subst hpno
      constructor
      · rw [← hx, ← hy]
        simp
      · exact hok
    · rw [List.cons_append, List.cons_append, List.cons_append] at heq
      obtain ⟨_, htl⟩ := List.cons_eq_cons.mp heq
      obtain ⟨_, htl2⟩ := List.cons_eq_cons.mp htl
      obtain ⟨_, htl3⟩ := List.cons_eq_cons.mp htl2
      exact absurd htl3.symm (by simp)

/-- The whole per-network loop trace is guarded. -/
theorem pfGuarded_setupLoop (env : Env) (ns : String) (opts : NetworkOptions) :
    ∀ (nets : List (String × Network)) (resp : List (String × StatusBlock)),
      pfGuarded env (setupLoop env ns opts nets resp).1 := by
  intro nets
  induction nets with
  | nil => intro resp; simpa [setupLoop] using pfGuarded_nil env
  | cons q rest ih =>
    intro resp
    obtain ⟨n, nw⟩ := q
    rcases h0 : setupOneNetwork env ns opts n nw with ⟨evs, r⟩
    have h1 : pfGuarded env evs := by
      have h2 := pfGuarded_oneTrace env ns opts (n, nw)
      rw [oneTrace, h0] at h2
      exact h2
    cases r with
    | error e => simp only [setupLoop, h0]; exact h1
    | ok sb =>
      simp only [setupLoop, h0]
      exact pfGuarded_append env h1 (ih _)

/-- Exhaustive case analysis of one invocation of `Setup::exec`: it either
stops at namespace validation, configuration loading, firewall-backend
discovery or the sysctl, or it runs the per-network loop, which itself either
fails or succeeds, in which case the status is printed last. -/
theorem exec_cases (env : Env) (s : Setup) (f : String) :
    (∃ e, env.ns_checks s.network_namespace_path = .error e ∧
      Setup.exec env s f =
        ([Event.nsCheck s.network_namespace_path],
         Outcome.error ("invalid namespace path: " ++ e)))
  ∨ (∃ e, env.ns_checks s.network_namespace_path = .ok () ∧ env.load f = .error e ∧
      Setup.exec env s f =
        ([Event.nsCheck s.network_namespace_path, Event.loadConfig f], Outcome.error e))
  ∨ (∃ opts e, env.ns_checks s.network_namespace_path = .ok () ∧
      env.load f = .ok opts ∧ env.get_supported_firewall_driver = .error e ∧
      Setup.exec env s f =
        ([Event.nsCheck s.network_namespace_path, Event.loadConfig f,
          Event.firewallDetect], Outcome.fatal e))
  ∨ (∃ opts e, env.ns_checks s.network_namespace_path = .ok () ∧
      env.load f = .ok opts ∧ env.get_supported_firewall_driver = .ok () ∧
      env.apply_sysctl_value IPV4_FORWARD "1" = .error e ∧
      Setup.exec env s f =
        ([Event.nsCheck s.network_namespace_path, Event.loadConfig f,
          Event.firewallDetect, Event.sysctl IPV4_FORWARD "1"], Outcome.error e))
  ∨ (∃ opts evs e, env.ns_checks s.network_namespace_path = .ok () ∧
      env.load f = .ok opts ∧ env.get_supported_firewall_driver = .ok () ∧
      env.apply_sysctl_value IPV4_FORWARD "1" = .ok () ∧
      setupLoop env s.network_namespace_path opts opts.network_info [] = (evs, .error e) ∧
      Setup.exec env s f =
        (Event.nsCheck s.network_namespace_path :: Event.loadConfig f ::
          Event.firewallDetect :: Event.sysctl IPV4_FORWARD "1" :: evs,
         Outcome.error e))
  ∨ (∃ opts evs resp, env.ns_checks s.network_namespace_path = .ok () ∧
      env.load f = .ok opts ∧ env.get_supported_firewall_driver = .ok () ∧
      env.apply_sysctl_value IPV4_FORWARD "1" = .ok () ∧
      setupLoop env s.network_namespace_path opts opts.network_info [] = (evs, .ok resp) ∧
      Setup.exec env s f =
        (Event.nsCheck s.network_namespace_path :: Event.loadConfig f ::
          Event.firewallDetect :: Event.sysctl IPV4_FORWARD "1" ::
          (evs ++ [Event.printStatus resp]),
         Outcome.ok)) := by
  cases hns : env.ns_checks s.network_namespace_path with
  | error e =>
    refine Or.inl ⟨e, rfl, ?_⟩
    unfold Setup.exec
    rw [hns]
  | ok u =>
    cases u
    cases hload : env.load f with
    | error e =>
      refine Or.inr (Or.inl ⟨e, rfl, rfl, ?_⟩)
      unfold Setup.exec
      simp only [hns, hload]
    | ok opts =>
      cases hfw : env.get_supported_firewall_driver with
      | error e =>
        refine Or.inr (Or.inr (Or.inl ⟨opts, e, rfl, rfl, rfl, ?_⟩))
        unfold Setup.exec execLoaded
        simp only [hns, hload, hfw]
      | ok u2 =>
        cases u2
        cases hsy : env.apply_sysctl_value IPV4_FORWARD "1" with
        | error e =>
          refine Or.inr (Or.inr (Or.inr (Or.inl ⟨opts, e, rfl, rfl, rfl, rfl, ?_⟩)))
          unfold Setup.exec execLoaded
          simp only [hns, hload, hfw, hsy]
        | ok u3 =>
          cases u3
          rcases hloop : setupLoop env s.network_namespace_path opts opts.network_info []
            with ⟨evs, r⟩
          cases r with
          | error e =>
            refine Or.inr (Or.inr (Or.inr (Or.inr (Or.inl
              ⟨opts, evs, e, rfl, rfl, rfl, rfl, hloop, ?_⟩))))
            unfold Setup.exec execLoaded
            simp only [hns, hload, hfw, hsy, hloop]
          | ok resp =>
            refine Or.inr (Or.inr (Or.inr (Or.inr (Or.inr
              ⟨opts, evs, resp, rfl, rfl, rfl, rfl, hloop, ?_⟩))))
            unfold Setup.exec execLoaded
            simp only [hns, hload, hfw, hsy, hloop]

/-- The whole invocation trace is guarded. -/
theorem pfGuarded_exec (env : Env) (s : Setup) (f : String) :
    pfGuarded env (Setup.exec env s f).1 := by
  rcases exec_cases env s f with ⟨e, _, hx⟩ | ⟨e, _, _, hx⟩ | ⟨opts, e, _, _, _, hx⟩ |
    ⟨opts, e, _, _, _, _, hx⟩ | ⟨opts, evs, e, _, _, _, _, hloop, hx⟩ |
    ⟨opts, evs, resp, _, _, _, _, hloop, hx⟩ <;> rw [hx]
  · exact pfGuarded_single env _ (by simp)
  · exact pfGuarded_cons env _ _ (by simp) (pfGuarded_single env _ (by simp))
  · exact pfGuarded_cons env _ _ (by simp) (pfGuarded_cons env _ _ (by simp)
      (pfGuarded_single env _ (by simp)))
  · exact pfGuarded_cons env _ _ (by simp) (pfGuarded_cons env _ _ (by simp)
      (pfGuarded_cons env _ _ (by simp) (pfGuarded_single env _ (by simp))))
  · have hg : pfGuarded env evs := by
      have h2 := pfGuarded_setupLoop env s.network_namespace_path opts opts.network_info []
      rw [hloop] at h2
      exact h2
    exact pfGuarded_cons env _ _ (by simp) (pfGuarded_cons env _ _ (by simp)
      (pfGuarded_cons env _ _ (by simp) (pfGuarded_cons env _ _ (by simp) hg)))
  · have hg : pfGuarded env evs := by
      have h2 := pfGuarded_setupLoop env s.network_namespace_path opts opts.network_info []
      rw [hloop] at h2
      exact h2
    exact pfGuarded_cons env _ _ (by simp) (pfGuarded_cons env _ _ (by simp)
      (pfGuarded_cons env _ _ (by simp) (pfGuarded_cons env _ _ (by simp)
        (pfGuarded_append env hg (pfGuarded_single env _ (by simp))))))

/-- C1: For every invocation of `Setup::exec`, the aggregate status mapping is
printed to standard output exactly once when every network was provisioned
without error, and zero times otherwise — nothing is emitted on the success
channel when any step fails. -/
theorem claim_c1 (env : Env) (s : Setup) (f : String) :
    (Setup.exec env s f).1.countP Event.isPrint =
      (if (Setup.exec env s f).2 = Outcome.ok then 1 else 0) := by
  rcases exec_cases env s f with ⟨e, _, hx⟩ | ⟨e, _, _, hx⟩ | ⟨opts, e, _, _, _, hx⟩ |
    ⟨opts, e, _, _, _, _, hx⟩ | ⟨opts, evs, e, _, _, _, _, hloop, hx⟩ |
    ⟨opts, evs, resp, _, _, _, _, hloop, hx⟩ <;> rw [hx] <;>
    simp [Event.isPrint]
  · have hz := setupLoop_no_print env s.network_namespace_path opts opts.network_info []
    rw [hloop] at hz
    simpa [Event.isPrint] using hz
  · have hz := setupLoop_no_print env s.network_namespace_path opts opts.network_info []
    rw [hloop] at hz
    simpa [Event.isPrint] using hz

/-- C2: the first error encountered during any network's provisioning aborts
the remaining networks — the invocation's trace consists of the preceding
networks' events (which are not rolled back) followed by the failing
network's events, with nothing executed for any later network, and the
outcome is exactly that first error. -/
theorem claim_c2 (env : Env) (s : Setup) (f : String) (opts : NetworkOptions)
    (pre post : List (String × Network)) (q : String × Network) (e : String)
    (hns : env.ns_checks s.network_namespace_path = .ok ())
    (hload : env.load f = .ok opts)
    (hfw : env.get_supported_firewall_driver = .ok ())
    (hsys : env.apply_sysctl_value IPV4_FORWARD "1" = .ok ())
    (hnets : opts.network_info = pre ++ q :: post)
    (hpre : ∀ r ∈ pre,
      (setupOneNetwork env s.network_namespace_path opts r.1 r.2).2.isOkB = true)
    (hfail : (setupOneNetwork env s.network_namespace_path opts q.1 q.2).2 = .error e) :
    Setup.exec env s f =
      (Event.nsCheck s.network_namespace_path :: Event.loadConfig f ::
        Event.firewallDetect :: Event.sysctl IPV4_FORWARD "1" ::
        ((pre.map (oneTrace env s.network_namespace_path opts)).join ++
          oneTrace env s.network_namespace_path opts q),
       Outcome.error e) := by
  have hloop := setupLoop_fail env s.network_namespace_path opts q post e hfail pre [] hpre
  rw [← hnets] at hloop
  unfold Setup.exec execLoaded
  simp only [hns, hload, hfw, hsys, hloop]

/-- C3: when every network provisions successfully, the invocation's trace is
the concatenation of the per-network traces in exactly the order the networks
appear in the input configuration — the networks are provisioned sequentially
and in input order. -/
theorem claim_c3 (env : Env) (s : Setup) (f : String) (opts : NetworkOptions)
    (hns : env.ns_checks s.network_namespace_path = .ok ())
    (hload : env.load f = .ok opts)
    (hfw : env.get_supported_firewall_driver = .ok ())
    (hsys : env.apply_sysctl_value IPV4_FORWARD "1" = .ok ())
    (hok : ∀ r ∈ opts.network_info,
      (setupOneNetwork env s.network_namespace_path opts r.1 r.2).2.isOkB = true) :
    ∃ resp, Setup.exec env s f =
      (Event.nsCheck s.network_namespace_path :: Event.loadConfig f ::
        Event.firewallDetect :: Event.sysctl IPV4_FORWARD "1" ::
        ((opts.network_info.map (oneTrace env s.network_namespace_path opts)).join ++
          [Event.printStatus resp]),
       Outcome.ok) := by
  obtain ⟨sbs, hloop⟩ :=
    setupLoop_ok env s.network_namespace_path opts opts.network_info [] hok
  rw [List.nil_append] at hloop
  refine ⟨sbs, ?_⟩
  unfold Setup.exec execLoaded
  simp only [hns, hload, hfw, hsys, hloop]

/-- C4: wherever a `setup_port_forward` call appears in an invocation's
trace, a `setup_network` call for the same network and token appears earlier
in the trace and returned successfully — port-forward rules are never
installed before the network's rules. -/
theorem claim_c4 (env : Env) (s : Setup) (f : String) (l1 l2 : List Event)
    (n : String) (nw : Network) (cid : String) (pms : List PortMapping)
    (h : String) (pno : PerNetworkOptions)
    (hsplit : (Setup.exec env s f).1 =
      l1 ++ Event.setupPortForward n nw cid pms h pno :: l2) :
    Event.setupNetwork n nw h ∈ l1 ∧ env.setup_network nw h = .ok () :=
  pfGuarded_exec env s f l1 n nw cid pms h pno l2 hsplit

/-- C9: when no supported firewall backend is detected, the invocation
aborts fatally right after backend discovery — before the sysctl and before
any per-network work — carrying the discovery error, with a non-zero exit
status and no status printed. -/
theorem claim_c9 (env : Env) (s : Setup) (f : String) (e : String)
    (opts : NetworkOptions)
    (hns : env.ns_checks s.network_namespace_path = .ok ())
    (hload : env.load f = .ok opts)
    (hfw : env.get_supported_firewall_driver = .error e) :
    Setup.exec env s f =
      ([Event.nsCheck s.network_namespace_path, Event.loadConfig f,
        Event.firewallDetect], Outcome.fatal e) ∧
    (Setup.exec env s f).2.exitCode ≠ 0 ∧
    (Setup.exec env s f).1.countP Event.isPrint = 0 ∧
    ∀ ev ∈ (Setup.exec env s f).1, ev.isPerNetwork = false := by
  have hx : Setup.exec env s f =
      ([Event.nsCheck s.network_namespace_path, Event.loadConfig f,
        Event.firewallDetect], Outcome.fatal e) := by
    unfold Setup.exec execLoaded
    simp only [hns, hload, hfw]
  refine ⟨hx, ?_, ?_, ?_⟩ <;> rw [hx] <;>
    simp [Outcome.exitCode, Event.isPrint, Event.isPerNetwork]

/-- C8: the pipeline stages run in the fixed order namespace validation,
configuration loading, firewall-backend discovery, the single global
IPv4-forwarding sysctl, then per-network work: the sysctl occurs at most once
in any trace, an invalid namespace path stops the invocation with only the
validation event (before any configuration is loaded), and everything after
the sysctl event is per-network work or the final status print. -/
theorem claim_c8 (env : Env) (s : Setup) (f : String) :
    (Setup.exec env s f).1.countP Event.isSysctl ≤ 1 ∧
    ((∃ e, env.ns_checks s.network_namespace_path = .error e) ∧
        (Setup.exec env s f).1 = [Event.nsCheck s.network_namespace_path]
     ∨ env.ns_checks s.network_namespace_path = .ok () ∧
        (∃ e, env.load f = .error e) ∧
        (Setup.exec env s f).1 =
          [Event.nsCheck s.network_namespace_path, Event.loadConfig f]
     ∨ env.ns_checks s.network_namespace_path = .ok () ∧
        (env.load f).isOkB = true ∧
        (∃ e, env.get_supported_firewall_driver = .error e) ∧
        (Setup.exec env s f).1 =
          [Event.nsCheck s.network_namespace_path, Event.loadConfig f,
           Event.firewallDetect]
     ∨ env.ns_checks s.network_namespace_path = .ok () ∧
        (env.load f).isOkB = true ∧
        env.get_supported_firewall_driver = .ok () ∧
        ∃ rest, (Setup.exec env s f).1 =
            Event.nsCheck s.network_namespace_path :: Event.loadConfig f ::
            Event.firewallDetect :: Event.sysctl IPV4_FORWARD "1" :: rest ∧
          (∀ ev ∈ rest, ev.isPerNetwork = true ∨ ev.isPrint = true) ∧
          rest.countP Event.isSysctl = 0) := by
  rcases exec_cases env s f with ⟨e, hns, hx⟩ | ⟨e, hns, hload, hx⟩ |
    ⟨opts, e, hns, hload, hfw, hx⟩ | ⟨opts, e, hns, hload, hfw, hsy, hx⟩ |
    ⟨opts, evs, e, hns, hload, hfw, hsy, hloop, hx⟩ |
    ⟨opts, evs, resp, hns, hload, hfw, hsy, hloop, hx⟩
  · exact ⟨by rw [hx]; simp [Event.isSysctl], Or.inl ⟨⟨e, hns⟩, by rw [hx]⟩⟩
  · exact ⟨by rw [hx]; simp [Event.isSysctl],
      Or.inr (Or.inl ⟨hns, ⟨e, hload⟩, by rw [hx]⟩)⟩
  · exact ⟨by rw [hx]; simp [Event.isSysctl],
      Or.inr (Or.inr (Or.inl ⟨hns, by rw [hload]; rfl, ⟨e, hfw⟩, by rw [hx]⟩))⟩
  · refine ⟨by rw [hx]; simp [Event.isSysctl], Or.inr (Or.inr (Or.inr
      ⟨hns, by rw [hload]; rfl, hfw, [], by rw [hx], by simp, by simp⟩))⟩
  · have hmem : ∀ ev ∈ evs, ev.isPerNetwork = true ∨ ev.isPrint = true := by
      intro ev hev
      have hev2 : ev ∈ (setupLoop env s.network_namespace_path opts opts.network_info []).1 := by
        rw [hloop]; exact hev
      obtain ⟨r, _, hmem2⟩ := setupLoop_mem env s.network_namespace_path opts
        opts.network_info [] ev hev2
      exact Or.inl (oneTrace_mem env s.network_namespace_path opts r ev hmem2).1
    have hz : evs.countP Event.isSysctl = 0 := by
      have h2 := setupLoop_no_sysctl env s.network_namespace_path opts opts.network_info []
      rw [hloop] at h2
      exact h2
    refine ⟨?_, Or.inr (Or.inr (Or.inr
      ⟨hns, by rw [hload]; rfl, hfw, evs, by rw [hx], hmem, hz⟩))⟩
    rw [hx]
    simp [Event.isSysctl, List.countP_cons, hz]
  · have hmem : ∀ ev ∈ evs ++ [Event.printStatus resp],
        ev.isPerNetwork = true ∨ ev.isPrint = true := by
      intro ev hev
      rcases List.mem_append.1 hev with hev | hev
      · have hev2 : ev ∈ (setupLoop env s.network_namespace_path opts opts.network_info []).1 := by
          rw [hloop]; exact hev
        obtain ⟨r, _, hmem2⟩ := setupLoop_mem env s.network_namespace_path opts
          opts.network_info [] ev hev2
        exact Or.inl (oneTrace_mem env s.network_namespace_path opts r ev hmem2).1
      · simp at hev
        rw [hev]
        exact Or.inr rfl
    have hz : evs.countP Event.isSysctl = 0 := by
      have h2 := setupLoop_no_sysctl env s.network_namespace_path opts opts.network_info []
      rw [hloop] at h2
      exact h2
    have hz2 : (evs ++ [Event.printStatus resp]).countP Event.isSysctl = 0 := by
      rw [List.countP_append, hz]
      simp [Event.isSysctl]
    refine ⟨?_, Or.inr (Or.inr (Or.inr
      ⟨hns, by rw [hload]; rfl, hfw, evs ++ [Event.printStatus resp],
        by rw [hx], hmem, hz2⟩))⟩
    rw [hx]
    simp [Event.isSysctl, List.countP_cons, hz2]

/-- If some network of the request is rejected before any of its per-network
calls (its one-network processing yields an empty trace and an error), the
invocation cannot succeed, prints nothing, and its trace contains no event
for that network. -/
theorem exec_fails_and_silent (env : Env) (s : Setup) (f : String)
    (opts : NetworkOptions) (n : String) (nw : Network) (msg : String)
    (hload : env.load f = .ok opts)
    (hnodup : (opts.network_info.map Prod.fst).Nodup)
    (hmem : (n, nw) ∈ opts.network_info)
    (hbad : setupOneNetwork env s.network_namespace_path opts n nw = ([], .error msg)) :
    (Setup.exec env s f).2 ≠ Outcome.ok ∧
    (Setup.exec env s f).1.countP Event.isPrint = 0 ∧
    ∀ ev ∈ (Setup.exec env s f).1, ev.netOf ≠ some n := by
  rcases exec_cases env s f with ⟨e, hns, hx⟩ | ⟨e, hns, hload2, hx⟩ |
    ⟨opts2, e, hns, hload2, hfw, hx⟩ | ⟨opts2, e, hns, hload2, hfw, hsy, hx⟩ |
    ⟨opts2, evs, e, hns, hload2, hfw, hsy, hloop, hx⟩ |
    ⟨opts2, evs, resp, hns, hload2, hfw, hsy, hloop, hx⟩
  · refine ⟨by rw [hx]; simp, by rw [hx]; simp [Event.isPrint], ?_⟩
    rw [hx]
    intro ev hev
    simp at hev
    rw [hev]
    simp [Event.netOf]
  · rw [hload] at hload2
    simp at hload2
  · refine ⟨by rw [hx]; simp, by rw [hx]; simp [Event.isPrint], ?_⟩
    rw [hx]
    intro ev hev
    simp at hev
    rcases hev with rfl | rfl | rfl <;> simp [Event.netOf]
  · refine ⟨by rw [hx]; simp, by rw [hx]; simp [Event.isPrint], ?_⟩
    rw [hx]
    intro ev hev
    simp at hev
    rcases hev with rfl | rfl | rfl | rfl <;> simp [Event.netOf]
  · rw [hload] at hload2
    injection hload2 with hoe
    subst hoe
    refine ⟨by rw [hx]; simp, ?_, ?_⟩
    · rw [hx]
      have hz := setupLoop_no_print env s.network_namespace_path opts opts.network_info []
      rw [hloop] at hz
      simp [Event.isPrint, List.countP_cons, hz]
    · rw [hx]
      intro ev hev
      simp only [List.mem_cons] at hev
      rcases hev with rfl | rfl | rfl | rfl | hev
      · simp [Event.netOf]
      · simp [Event.netOf]
      · simp [Event.netOf]
      · simp [Event.netOf]
      · have hev2 : ev ∈ (setupLoop env s.network_namespace_path opts
            opts.network_info []).1 := by
          rw [hloop]; exact hev
        obtain ⟨r, hr, hmemtr⟩ :=
          setupLoop_mem env s.network_namespace_path opts opts.network_info [] ev hev2
        have hof := (oneTrace_mem env s.network_namespace_path opts r ev hmemtr).2
        intro hcontra
        rw [hof] at hcontra
        have hr1 : r.1 = n := Option.some.inj hcontra
        have hr2 : (n, r.2) ∈ opts.network_info := by
          rw [← hr1, Prod.mk.eta]
          exact hr
        have hr2v : r.2 = nw := keyInj opts.network_info hnodup hr2 hmem
        have hr3 : r = (n, nw) := by
          cases r
          simp_all
        rw [hr3] at hmemtr
        rw [oneTrace] at hmemtr
        rw [hbad] at hmemtr
        simp at hmemtr
  · rw [hload] at hload2
    injection hload2 with hoe
    subst hoe
    have hbad2 : ¬ (setupOneNetwork env s.network_namespace_path opts
        (n, nw).1 (n, nw).2).2.isOkB = true := by
      rw [hbad]
      simp [Except.isOkB]
    obtain ⟨e2, he2⟩ := setupLoop_error_of_mem env s.network_namespace_path opts
      opts.network_info [] (n, nw) hmem hbad2
    rw [hloop] at he2
    simp at he2

/-- C5: a network whose definition names a driver other than `"bridge"` is
rejected with an unknown-driver error before any device-provisioning or
firewall call is made for it (its one-network trace is empty), the invocation
cannot succeed, no status is printed, and the invocation trace contains no
event for that network. -/
theorem claim_c5 (env : Env) (s : Setup) (f : String) (opts : NetworkOptions)
    (n : String) (nw : Network)
    (hload : env.load f = .ok opts)
    (hnodup : (opts.network_info.map Prod.fst).Nodup)
    (hmem : (n, nw) ∈ opts.network_info)
    (hdrv : nw.driver ≠ "bridge") :
    setupOneNetwork env s.network_namespace_path opts n nw =
      ([], .error ("unknown network driver " ++ nw.driver)) ∧
    (Setup.exec env s f).2 ≠ Outcome.ok ∧
    (Setup.exec env s f).1.countP Event.isPrint = 0 ∧
    ∀ ev ∈ (Setup.exec env s f).1, ev.netOf ≠ some n := by
  have hone : setupOneNetwork env s.network_namespace_path opts n nw =
      ([], .error ("unknown network driver " ++ nw.driver)) := by
    unfold setupOneNetwork
    rw [if_neg hdrv]
  obtain ⟨h1, h2, h3⟩ := exec_fails_and_silent env s f opts n nw _ hload hnodup hmem hone
  exact ⟨hone, h1, h2, h3⟩

/-- C6: a bridge network present in the definitions mapping but absent from
the per-network runtime-options mapping is rejected with a
missing-network-options error before any device is created for it (its
one-network trace is empty), the invocation cannot succeed, no status is
printed, and the invocation trace contains no event for that network. -/
theorem claim_c6 (env : Env) (s : Setup) (f : String) (opts : NetworkOptions)
    (n : String) (nw : Network)
    (hload : env.load f = .ok opts)
    (hnodup : (opts.network_info.map Prod.fst).Nodup)
    (hmem : (n, nw) ∈ opts.network_info)
    (hdrv : nw.driver = "bridge")
    (hnone : lookupOpts opts.networks n = none) :
    setupOneNetwork env s.network_namespace_path opts n nw =
      ([], .error ("network options for network " ++ n ++ " not found")) ∧
    (Setup.exec env s f).2 ≠ Outcome.ok ∧
    (Setup.exec env s f).1.countP Event.isPrint = 0 ∧
    ∀ ev ∈ (Setup.exec env s f).1, ev.netOf ≠ some n := by
  have hone : setupOneNetwork env s.network_namespace_path opts n nw =
      ([], .error ("network options for network " ++ n ++ " not found")) := by
    unfold setupOneNetwork
    rw [if_pos hdrv, hnone]
  obtain ⟨h1, h2, h3⟩ := exec_fails_and_silent env s f opts n nw _ hload hnodup hmem hone
  exact ⟨hone, h1, h2, h3⟩

/-- Appending an entry with a fresh key to the runtime-options mapping does
not change lookups of other keys. -/
theorem lookup_append_ne (l : List (String × PerNetworkOptions)) (m : String)
    (pno : PerNetworkOptions) (k : String) (hk : k ≠ m) :
    lookupOpts (l ++ [(m, pno)]) k = lookupOpts l k := by
  induction l with
  | nil => simp [lookupOpts, Ne.symm hk]
  | cons x rest ih =>
    obtain ⟨k0, v0⟩ := x
    simp only [List.cons_append, lookupOpts]
    split
    · rfl
    · exact ih

/-- Processing one network is unaffected by a stray runtime-options entry
whose name differs from the network's. -/
theorem setupOneNetwork_extend (env : Env) (ns : String) (opts : NetworkOptions)
    (m : String) (pno : PerNetworkOptions) (n : String) (nw : Network) (hne : n ≠ m) :
    setupOneNetwork env ns { opts with networks := opts.networks ++ [(m, pno)] } n nw =
      setupOneNetwork env ns opts n nw := by
  unfold setupOneNetwork
  rw [show ({ opts with networks := opts.networks ++ [(m, pno)] } :
        NetworkOptions).networks = opts.networks ++ [(m, pno)] from rfl,
    lookup_append_ne opts.networks m pno n hne]

/-- The per-network loop is unaffected by a stray runtime-options entry whose
name matches none of the processed networks. -/
theorem setupLoop_extend (env : Env) (ns : String) (opts : NetworkOptions)
    (m : String) (pno : PerNetworkOptions) :
    ∀ (nets : List (String × Network)) (resp : List (String × StatusBlock)),
      (∀ r ∈ nets, r.1 ≠ m) →
      setupLoop env ns { opts with networks := opts.networks ++ [(m, pno)] } nets resp =
        setupLoop env ns opts nets resp := by
  intro nets
  induction nets with
  | nil => intro resp _; rfl
  | cons q rest ih =>
    intro resp hm
    obtain ⟨n, nw⟩ := q
    have hne : n ≠ m := hm (n, nw) (List.mem_cons_self _ _)
    simp only [setupLoop, setupOneNetwork_extend env ns opts m pno n nw hne]
    rcases h0 : setupOneNetwork env ns opts n nw with ⟨evs, r⟩
    cases r with
    | error e => rfl
    | ok sb =>
      dsimp only
      rw [ih (resp ++ [(n, sb)]) (fun r hr => hm r (List.mem_cons_of_mem _ hr))]

/-- C7 (amended): a network name present in the runtime-options mapping but
absent from the definitions mapping is silently ignored — adding such an
entry changes neither the trace nor the outcome of the invocation after
loading; no error is raised for it. -/
theorem claim_c7 (env : Env) (ns : String) (opts : NetworkOptions)
    (m : String) (pno : PerNetworkOptions)
    (hm : m ∉ opts.network_info.map Prod.fst) :
    execLoaded env ns { opts with networks := opts.networks ++ [(m, pno)] } =
      execLoaded env ns opts := by
  have hnets : ∀ r ∈ opts.network_info, r.1 ≠ m := by
    intro r hr hcontra
    exact hm (hcontra ▸ List.mem_map_of_mem Prod.fst hr)
  unfold execLoaded
  rw [show ({ opts with networks := opts.networks ++ [(m, pno)] } :
        NetworkOptions).network_info = opts.network_info from rfl,
    setupLoop_extend env ns opts m pno opts.network_info [] hnets]

/-- C7 (counterexample): with the runtime-options mapping holding an entry
`b` that is absent from the definitions mapping, the invocation succeeds —
the violating entry causes no fatal configuration error, contrary to the
claim. -/
theorem claim_c7_counterexample :
    (Setup.exec (baseEnv optsExtra) ⟨"ns"⟩ "cfg").2 = Outcome.ok ∧
    lookupOpts optsExtra.networks "b" = some pnoB ∧
    ∀ nw, ("b", nw) ∉ optsExtra.network_info := by
  refine ⟨rfl, rfl, ?_⟩
  intro nw hmem
  simp [optsExtra] at hmem

/-- Any port-forward event in a one-network trace carries the request's full
port-mappings list and container id. -/
theorem oneTrace_pf (env : Env) (ns : String) (opts : NetworkOptions)
    (r : String × Network) (ev : Event) (hev : ev ∈ oneTrace env ns opts r)
    (n : String) (nw : Network) (cid : String) (pms : List PortMapping)
    (h : String) (pno : PerNetworkOptions)
    (heq : ev = Event.setupPortForward n nw cid pms h pno) :
    opts.port_mappings = some pms ∧ cid = opts.container_id := by
  subst heq
  rcases setupOneNetwork_shapes env ns opts r.1 r.2 with ⟨h1, _⟩ | ⟨pno2, h1, _⟩ |
      ⟨pno2, h1, _⟩ | ⟨pno2, pms2, hp, _, h1⟩ <;> rw [oneTrace, h1] at hev <;> simp at hev
  obtain ⟨hn, hnw, hcid, hpms, hh, hpno⟩ := hev
  exact ⟨by rw [hp, hpms], hcid⟩

/-- If the loop finished successfully, every network it processed succeeded. -/
theorem setupLoop_all_ok (env : Env) (ns : String) (opts : NetworkOptions) :
    ∀ (nets : List (String × Network)) (resp x),
      (setupLoop env ns opts nets resp).2 = .ok x →
      ∀ r ∈ nets, (setupOneNetwork env ns opts r.1 r.2).2.isOkB = true := by
  intro nets
  induction nets with
  | nil => intro resp x _ r hr; simp at hr
  | cons q rest ih =>
    intro resp x hx r hr
    obtain ⟨n, nw⟩ := q
    rcases h0 : setupOneNetwork env ns opts n nw with ⟨evs, rr⟩
    simp only [setupLoop, h0] at hx
    cases rr with
    | error e => simp at hx
    | ok sb =>
      rcases List.mem_cons.1 hr with rfl | hr2
      · rw [h0]
        rfl
      · exact ih (resp ++ [(n, sb)]) x hx r hr2

/-- If processing one network succeeded and the request has a port-mappings
list, the network's trace contains a port-forward call with that full list. -/
theorem setupOneNetwork_ok_pf (env : Env) (ns : String) (opts : NetworkOptions)
    (n : String) (nw : Network) (pms : List PortMapping)
    (hok : (setupOneNetwork env ns opts n nw).2.isOkB = true)
    (hp : opts.port_mappings = some pms) :
    ∃ h pno, Event.setupPortForward n nw opts.container_id pms h pno ∈
      (setupOneNetwork env ns opts n nw).1 := by
  rcases setupOneNetwork_shapes env ns opts n nw with ⟨h1, h2⟩ | ⟨pno2, h1, h2⟩ |
      ⟨pno2, h1, h2⟩ | ⟨pno2, pms2, hp2, _, h1⟩
  · rw [hok] at h2
    simp at h2
  · rw [hok] at h2
    simp at h2
  · rw [hp] at h2
    simp [hok] at h2
  · rw [hp] at hp2
    injection hp2 with hpe
    refine ⟨env.create_network_hash n MAX_HASH_SIZE, pno2, ?_⟩
    rw [h1, hpe]
    simp

/-- C10: every port-forward call of an invocation receives the request's
whole, unfiltered port-mappings list (so when the request has no list, no
port-forward call is ever made), and on a successful run with a list present
every network in the request gets such a call. -/
theorem claim_c10 (env : Env) (s : Setup) (f : String) (opts : NetworkOptions)
    (hload : env.load f = .ok opts) :
    (∀ ev ∈ (Setup.exec env s f).1, ∀ n nw cid pms h pno,
        ev = Event.setupPortForward n nw cid pms h pno →
        opts.port_mappings = some pms ∧ cid = opts.container_id) ∧
    ((Setup.exec env s f).2 = Outcome.ok →
      ∀ pms, opts.port_mappings = some pms →
      ∀ r ∈ opts.network_info, ∃ h pno,
        Event.setupPortForward r.1 r.2 opts.container_id pms h pno ∈
          (Setup.exec env s f).1) := by
  rcases exec_cases env s f with ⟨e, hns, hx⟩ | ⟨e, hns, hload2, hx⟩ |
    ⟨opts2, e, hns, hload2, hfw, hx⟩ | ⟨opts2, e, hns, hload2, hfw, hsy, hx⟩ |
    ⟨opts2, evs, e, hns, hload2, hfw, hsy, hloop, hx⟩ |
    ⟨opts2, evs, resp, hns, hload2, hfw, hsy, hloop, hx⟩
  · constructor
    · rw [hx]
      intro ev hev n nw cid pms h pno heq
      simp at hev
      rw [heq] at hev
      simp at hev
    · rw [hx]
      simp
  · rw [hload] at hload2
    simp at hload2
  · rw [hload] at hload2
    injection hload2 with hoe
    subst hoe
    constructor
    · rw [hx]
      intro ev hev n nw cid pms h pno heq
      simp at hev
      rcases hev with rfl | rfl | rfl <;> simp at heq
    · rw [hx]
      simp
  · rw [hload] at hload2
    injection hload2 with hoe
    subst hoe
    constructor
    · rw [hx]
      intro ev hev n nw cid pms h pno heq
      simp at hev
      rcases hev with rfl | rfl | rfl | rfl <;> simp at heq
    · rw [hx]
      simp
  · rw [hload] at hload2
    injection hload2 with hoe
    subst hoe
    constructor
    · rw [hx]
      intro ev hev n nw cid pms h pno heq
      simp only [List.mem_cons] at hev
      rcases hev with rfl | rfl | rfl | rfl | hev
      · simp at heq
      · simp at heq
      · simp at heq
      · simp at heq
      · have hev2 : ev ∈ (setupLoop env s.network_namespace_path opts
            opts.network_info []).1 := by
          rw [hloop]; exact hev
        obtain ⟨r, _, hmemtr⟩ :=
          setupLoop_mem env s.network_namespace_path opts opts.network_info [] ev hev2
        exact oneTrace_pf env s.network_namespace_path opts r ev hmemtr n nw cid pms
          h pno heq
    · rw [hx]
      simp
  · rw [hload] at hload2
    injection hload2 with hoe
    subst hoe
    constructor
    · rw [hx]
      intro ev hev n nw cid pms h pno heq
      simp only [List.mem_cons, List.mem_append] at hev
      rcases hev with rfl | rfl | rfl | rfl | hev | hev
      · simp at heq
      · simp at heq
      · simp at heq
      · simp at heq
      · have hev2 : ev ∈ (setupLoop env s.network_namespace_path opts
            opts.network_info []).1 := by
          rw [hloop]; exact hev
        obtain ⟨r, _, hmemtr⟩ :=
          setupLoop_mem env s.network_namespace_path opts opts.network_info [] ev hev2
        exact oneTrace_pf env s.network_namespace_path opts r ev hmemtr n nw cid pms
          h pno heq
      · simp at hev
        rw [hev] at heq
        simp at heq
    · intro _ pms hp r hr
      have hok := setupLoop_all_ok env s.network_namespace_path opts
        opts.network_info [] resp (by rw [hloop]) r hr
      obtain ⟨h, pno, hmem⟩ := setupOneNetwork_ok_pf env s.network_namespace_path opts
        r.1 r.2 pms hok hp
      refine ⟨h, pno, ?_⟩
      have hmem2 : Event.setupPortForward r.1 r.2 opts.container_id pms h pno ∈
          (setupLoop env s.network_namespace_path opts opts.network_info []).1 := by
        have hall := setupLoop_all_ok env s.network_namespace_path opts
          opts.network_info [] resp (by rw [hloop])
        obtain ⟨sbs, hloop2⟩ :=
          setupLoop_ok env s.network_namespace_path opts opts.network_info [] hall
        rw [hloop2]
        exact List.mem_join.2 ⟨oneTrace env s.network_namespace_path opts r,
          List.mem_map_of_mem _ hr, hmem⟩
      rw [hloop] at hmem2
      dsimp only at hmem2
      rw [hx]
      simp only [List.mem_cons, List.mem_append]
      exact Or.inr (Or.inr (Or.inr (Or.inr (Or.inl hmem2))))

/-- Concrete run of `claim_c2`: three bridge networks, the second one's bridge
provisioning fails, so the trace stops after the second network's events and
the third network is never touched. -/
theorem claim_c2_witness :
    Setup.exec envFailB ⟨"ns"⟩ "cfg" =
      (Event.nsCheck "ns" :: Event.loadConfig "cfg" :: Event.firewallDetect ::
        Event.sysctl IPV4_FORWARD "1" ::
        (([("a", netBridgeA)].map (oneTrace envFailB "ns" optsThree)).join ++
          oneTrace envFailB "ns" optsThree ("b", netBridgeB)),
       Outcome.error "boom") :=
  claim_c2 envFailB ⟨"ns"⟩ "cfg" optsThree [("a", netBridgeA)] [("c", netBridgeC)]
    ("b", netBridgeB) "boom" rfl rfl rfl rfl rfl
    (by
      intro r hr
      rcases List.mem_singleton.1 hr with rfl
      rfl)
    rfl

/-- Concrete run of `claim_c3`: two bridge networks, all collaborators
succeed; the trace is the two per-network traces in input order. -/
theorem claim_c3_witness :
    ∃ resp, Setup.exec (baseEnv optsTwo) ⟨"ns"⟩ "cfg" =
      (Event.nsCheck "ns" :: Event.loadConfig "cfg" :: Event.firewallDetect ::
        Event.sysctl IPV4_FORWARD "1" ::
        ((optsTwo.network_info.map (oneTrace (baseEnv optsTwo) "ns" optsTwo)).join ++
          [Event.printStatus resp]),
       Outcome.ok) :=
  claim_c3 (baseEnv optsTwo) ⟨"ns"⟩ "cfg" optsTwo rfl rfl rfl rfl
    (by
      intro r hr
      rcases List.mem_cons.1 hr with rfl | hr2
      · rfl
      · rcases List.mem_singleton.1 hr2 with rfl
        rfl)

/-- Concrete run of `claim_c4`: in a run with one port mapping, the
port-forward event at position six is preceded by the successful
network-rules event for the same network and token. -/
theorem claim_c4_witness :
    Event.setupNetwork "a" netBridgeA "a" ∈
      [Event.nsCheck "ns", Event.loadConfig "cfg", Event.firewallDetect,
       Event.sysctl IPV4_FORWARD "1",
       Event.bridgeSetup "a" pnoA netBridgeA "ns",
       Event.setupNetwork "a" netBridgeA "a"] ∧
    (baseEnv optsPF).setup_network netBridgeA "a" = .ok () :=
  claim_c4 (baseEnv optsPF) ⟨"ns"⟩ "cfg"
    [Event.nsCheck "ns", Event.loadConfig "cfg", Event.firewallDetect,
     Event.sysctl IPV4_FORWARD "1",
     Event.bridgeSetup "a" pnoA netBridgeA "ns",
     Event.setupNetwork "a" netBridgeA "a"]
    [Event.printStatus [("a", sbA)]]
    "a" netBridgeA "cid" [pmA] "a" pnoA rfl

/-- Concrete run of `claim_c5`: a request whose second network names the
driver `"macvlan"` fails without printing and without any event for that
network. -/
theorem claim_c5_witness :
    setupOneNetwork (baseEnv optsMac) (Setup.mk "ns").network_namespace_path optsMac
      "m" netMacvlan =
      ([], .error ("unknown network driver " ++ netMacvlan.driver)) ∧
    (Setup.exec (baseEnv optsMac) ⟨"ns"⟩ "cfg").2 ≠ Outcome.ok ∧
    (Setup.exec (baseEnv optsMac) ⟨"ns"⟩ "cfg").1.countP Event.isPrint = 0 ∧
    ∀ ev ∈ (Setup.exec (baseEnv optsMac) ⟨"ns"⟩ "cfg").1, ev.netOf ≠ some "m" :=
  claim_c5 (baseEnv optsMac) ⟨"ns"⟩ "cfg" optsMac "m" netMacvlan rfl
    (by decide) (by decide) (by decide)

/-- Concrete run of `claim_c6`: a bridge network `b` present in the
definitions but absent from the runtime options fails with the
missing-options error, without printing and without any event for `b`. -/
theorem claim_c6_witness :
    setupOneNetwork (baseEnv optsMissing) (Setup.mk "ns").network_namespace_path
      optsMissing "b" netBridgeB =
      ([], .error ("network options for network " ++ "b" ++ " not found")) ∧
    (Setup.exec (baseEnv optsMissing) ⟨"ns"⟩ "cfg").2 ≠ Outcome.ok ∧
    (Setup.exec (baseEnv optsMissing) ⟨"ns"⟩ "cfg").1.countP Event.isPrint = 0 ∧
    ∀ ev ∈ (Setup.exec (baseEnv optsMissing) ⟨"ns"⟩ "cfg").1, ev.netOf ≠ some "b" :=
  claim_c6 (baseEnv optsMissing) ⟨"ns"⟩ "cfg" optsMissing "b" netBridgeB rfl
    (by decide) (by decide) rfl rfl

/-- Concrete run of `claim_c7`: adding the stray runtime-options entry `b`
to a one-network request leaves the invocation unchanged. -/
theorem claim_c7_witness :
    execLoaded (baseEnv optsNoExtra) "ns"
      { optsNoExtra with networks := optsNoExtra.networks ++ [("b", pnoB)] } =
      execLoaded (baseEnv optsNoExtra) "ns" optsNoExtra :=
  claim_c7 (baseEnv optsNoExtra) "ns" optsNoExtra "b" pnoB (by decide)

/-- Concrete run of `claim_c9`: with firewall-backend discovery failing, the
invocation stops fatally after three events, with a non-zero exit status and
nothing printed. -/
theorem claim_c9_witness :
    Setup.exec envNoFirewall ⟨"ns"⟩ "cfg" =
      ([Event.nsCheck "ns", Event.loadConfig "cfg", Event.firewallDetect],
       Outcome.fatal "could not find a firewall driver") ∧
    (Setup.exec envNoFirewall ⟨"ns"⟩ "cfg").2.exitCode ≠ 0 ∧
    (Setup.exec envNoFirewall ⟨"ns"⟩ "cfg").1.countP Event.isPrint = 0 ∧
    ∀ ev ∈ (Setup.exec envNoFirewall ⟨"ns"⟩ "cfg").1, ev.isPerNetwork = false :=
  claim_c9 envNoFirewall ⟨"ns"⟩ "cfg" "could not find a firewall driver" optsTwo
    rfl rfl rfl

/-- Concrete run of `claim_c10`: with one port mapping present, every
port-forward event carries the whole list, and the successful run makes such
a call for the request's network. -/
theorem claim_c10_witness :
    (∀ ev ∈ (Setup.exec (baseEnv optsPF) ⟨"ns"⟩ "cfg").1, ∀ n nw cid pms h pno,
        ev = Event.setupPortForward n nw cid pms h pno →
        optsPF.port_mappings = some pms ∧ cid = optsPF.container_id) ∧
    ((Setup.exec (baseEnv optsPF) ⟨"ns"⟩ "cfg").2 = Outcome.ok →
      ∀ pms, optsPF.port_mappings = some pms →
      ∀ r ∈ optsPF.network_info, ∃ h pno,
        Event.setupPortForward r.1 r.2 optsPF.container_id pms h pno ∈
          (Setup.exec (baseEnv optsPF) ⟨"ns"⟩ "cfg").1) :=
  claim_c10 (baseEnv optsPF) ⟨"ns"⟩ "cfg" optsPF rfl
